import Mathlib

/-!
Shallow embedding of `src/kpi_dashboard.py` (KPI dashboard generator).

The program loads a key=value config file, runs six fixed SQL queries, outer-joins
the resulting per-query DataFrames on the `dossier` column with zero / empty-string
filling, sorts the merged frame descending by `nb_pieces_a_traiter`, and renders an
HTML report whose cells carry severity classes.

DataFrames are modelled as `Table` (column list plus rows of column↦value bindings),
cell values as `Val` (int, string, or NaN).  Database I/O is abstracted: each query's
outcome is an `Except String Table` input to the orchestrator model.  Python string
operations are modelled character-by-character so that every definition evaluates
inside the Lean kernel.
-/

/-- A cell value of a pandas DataFrame: an integer, a string, or NaN (missing). -/
inductive Val where
  | int (n : Int)
  | str (s : String)
  | na
deriving DecidableEq

/-- A DataFrame row: an association list from column name to value. -/
abbrev Row := List (String × Val)

/-- Reading column `c` of a row; an absent binding reads as NaN (pandas missing). -/
def Row.get (r : Row) (c : String) : Val :=
  (List.lookup c r).getD Val.na

/-- A pandas DataFrame: its column names and its rows. -/
structure Table where
  cols : List String
  rows : List Row
deriving DecidableEq

instance : DecidableEq (Except String Table) := fun a b =>
  match a, b with
  | Except.ok x, Except.ok y =>
      if h : x = y then isTrue (by rw [h]) else isFalse (by intro hc; cases hc; exact h rfl)
  | Except.error e, Except.error e' =>
      if h : e = e' then isTrue (by rw [h]) else isFalse (by intro hc; cases hc; exact h rfl)
  | Except.ok _, Except.error _ => isFalse (by intro hc; cases hc)
  | Except.error _, Except.ok _ => isFalse (by intro hc; cases hc)

/-- Python `str.strip()`: drop leading and trailing whitespace (char-level, so it
evaluates in the kernel). -/
def pyStrip (s : String) : String :=
  ⟨((s.data.dropWhile Char.isWhitespace).reverse.dropWhile Char.isWhitespace).reverse⟩

/-- Python `str.startswith(p)`. -/
def pyStartsWith (s p : String) : Bool :=
  p.data.isPrefixOf s.data

/-- Python `c in s` for a single character. -/
def pyContains (s : String) (c : Char) : Bool :=
  s.data.contains c

/-- Python `s.split(c, 1)` for a single-character separator that occurs in `s`:
the part before the first `c` and everything after it. -/
def pySplitFirst (s : String) (c : Char) : String × String :=
  (⟨s.data.takeWhile (fun a => a != c)⟩, ⟨(s.data.dropWhile (fun a => a != c)).drop 1⟩)

/-- Python `str.lower()` (ASCII). -/
def pyLower (s : String) : String :=
  ⟨s.data.map Char.toLower⟩

/-- Decimal digits to a number, `none` when empty or a non-digit appears. -/
def digitsToNat? (l : List Char) : Option Nat :=
  if !l.isEmpty && l.all Char.isDigit then
    some (l.foldl (fun acc c => 10 * acc + (c.toNat - '0'.toNat)) 0)
  else none

/-- Python `int(s)` on an already-stripped string: optional sign followed by decimal
digits; `none` models a raised `ValueError` (digit-grouping underscores are not
modelled). -/
def pyInt? (s : String) : Option Int :=
  match s.data with
  | '+' :: rest => (digitsToNat? rest).map Int.ofNat
  | '-' :: rest => (digitsToNat? rest).map (fun n => -(n : Int))
  | l => (digitsToNat? l).map Int.ofNat

/-- The connection descriptor built by `load_config` (src lines 28–34). -/
structure Config where
  host : String
  database : String
  user : String
  password : String
  port : Int
deriving DecidableEq

/-- One iteration of the `for line in f` loop of `load_config` (src lines 21–25):
strip the line; if it is non-empty, does not start with `#`, and contains `=`,
split on the first `=` and store `key.strip().lower() ↦ value.strip()`.  The
Python dict is modelled as an association list with the newest binding in front,
so `List.lookup` returns the latest stored value, matching dict overwrite. -/
def parseLine (config : List (String × String)) (line : String) : List (String × String) :=
  let l := pyStrip line
  if !(l == "") && !(pyStartsWith l "#") && pyContains l '=' then
    (pyLower (pyStrip (pySplitFirst l '=').1), pyStrip (pySplitFirst l '=').2) :: config
  else config

/-- `load_config` (src lines 14–34).  `configExists` models `os.path.exists('config.txt')`
and `lines` the file's lines.  Result `none` models the one way loading can raise:
`int()` applied to a malformed `port` value; otherwise the descriptor is built with
each field independently defaulted. -/
def load_config (configExists : Bool) (lines : List String) : Option Config :=
  let config : List (String × String) :=
    if configExists then lines.foldl parseLine [] else []
  let port : Option Int :=
    match List.lookup "port" config with
    | none => some 5432
    | some s => pyInt? s
  port.map fun p =>
    { host := (List.lookup "host" config).getD "localhost"
      database := (List.lookup "database" config).getD "your_database"
      user := (List.lookup "user" config).getD "your_username"
      password := (List.lookup "password" config).getD "your_password"
      port := p }

/-- The Config Loader as the spec (§4.1) words it, written independently of
`load_config`: strip all lines, keep those that are non-blank, non-comment and
contain `=`, split each kept line on its first `=` into a lower-cased trimmed key
and a trimmed value. -/
def specEntries (lines : List String) : List (String × String) :=
  ((lines.map pyStrip).filter
      (fun l => !(l == "") && !(pyStartsWith l "#") && pyContains l '=')).map
    (fun l => (pyLower (pyStrip (pySplitFirst l '=').1), pyStrip (pySplitFirst l '=').2))

/-- Dict reading for the spec-side loader: the value of the last entry for a key
(later assignments overwrite earlier ones). -/
def specGet (entries : List (String × String)) (k : String) : Option String :=
  List.lookup k entries.reverse

/-- The descriptor the spec describes: each field independently defaulted when its
key is absent; `port` parsed as an integer with default 5432. -/
def load_config_spec (configExists : Bool) (lines : List String) : Option Config :=
  let es := if configExists then specEntries lines else []
  match specGet es "port" with
  | none => some
      { host := (specGet es "host").getD "localhost"
        database := (specGet es "database").getD "your_database"
        user := (specGet es "user").getD "your_username"
        password := (specGet es "password").getD "your_password"
        port := 5432 }
  | some s => (pyInt? s).map fun p =>
      { host := (specGet es "host").getD "localhost"
        database := (specGet es "database").getD "your_database"
        user := (specGet es "user").getD "your_username"
        password := (specGet es "password").getD "your_password"
        port := p }

/-- Severity class of a "Pièces à Traiter" cell (src line 297):
`'warning' if v > 50 else 'good' if v == 0 else ''`. -/
def pieces_class (v : Int) : String :=
  if v > 50 then "warning" else if v = 0 then "good" else ""

/-- Severity class of a "Comptes d'Attente" cell (src line 298):
`'warning' if v > 10 else 'good' if v == 0 else ''`. -/
def comptes_class (v : Int) : String :=
  if v > 10 then "warning" else if v = 0 then "good" else ""

/-- The join key of a row: its `dossier` cell (all six catalog queries select
`dossier`, and `merge_dataframes` always joins `on='dossier'`). -/
def rowKey (r : Row) : Val :=
  Row.get r "dossier"

/-- `pd.merge(t1, t2, on='dossier', how='outer')` (src line 123), for frames whose
only shared column is the key (true of all catalog queries, whose non-key column
names are pairwise distinct): the result's columns are `t1`'s followed by `t2`'s
new ones; each left row is combined with every right row having an equal key (or
kept alone, its right columns missing, when none matches), and right rows with no
matching left key are appended with their left columns missing. -/
def mergeTwo (t1 t2 : Table) : Table where
  cols := t1.cols ++ t2.cols.filter (fun c => !(t1.cols.contains c))
  rows :=
    (t1.rows.flatMap fun r =>
      let ms := t2.rows.filter (fun r2 => rowKey r2 == rowKey r)
      if ms.isEmpty then [r] else ms.map (fun r2 => r ++ r2))
    ++ t2.rows.filter (fun r2 => !(t1.rows.any (fun r => rowKey r == rowKey r2)))

/-- `result.select_dtypes(include=['number'])` membership (src line 126): a column
is numeric when none of its present values is a string (an int column that gained
NaNs from the outer join is float64, still numeric). -/
def isNumericCol (t : Table) (c : String) : Bool :=
  t.rows.all fun r =>
    match Row.get r c with
    | Val.str _ => false
    | _ => true

/-- The value `fillna` leaves in a cell (src lines 125–130): a present value stays;
a missing one becomes 0 in a numeric column and `''` elsewhere. -/
def fillVal (t : Table) (r : Row) (c : String) : Val :=
  match Row.get r c with
  | Val.na => if isNumericCol t c then Val.int 0 else Val.str ""
  | v => v

/-- One row after the two `fillna` passes: a binding for every column of `t`. -/
def fillRow (t : Table) (r : Row) : Row :=
  t.cols.map fun c => (c, fillVal t r c)

/-- The `fillna(0)` (numeric columns) then `fillna('')` steps of `merge_dataframes`
(src lines 125–130). -/
def fillna (t : Table) : Table where
  cols := t.cols
  rows := t.rows.map (fillRow t)

/-- The fold of pairwise outer merges in `merge_dataframes` (src lines 118–123):
start from the first frame and merge each further one into it. -/
def mergedRaw (dataframes : List Table) : Table :=
  match dataframes with
  | [] => { cols := [], rows := [] }
  | t :: rest => rest.foldl mergeTwo t

/-- `merge_dataframes` (src lines 113–132): empty input gives an empty DataFrame;
otherwise outer-join all frames on `dossier` and fill missing values. -/
def merge_dataframes (dataframes : List Table) : Table :=
  match dataframes with
  | [] => { cols := [], rows := [] }
  | t :: rest => fillna (rest.foldl mergeTwo t)

/-- The sort key `sort_values` reads from a row (src line 373): the
`nb_pieces_a_traiter` cell when it is a number, `none` when it is missing or not
sortable as a number. -/
def sortKey (c : String) (r : Row) : Option Int :=
  match Row.get r c with
  | Val.int n => some n
  | _ => none

/-- Row ordering of `sort_values(c, ascending=False, na_position='last')`:
descending by the sort key, keyless rows last. -/
def rowLeB (c : String) (r1 r2 : Row) : Bool :=
  match sortKey c r1, sortKey c r2 with
  | some a, some b => decide (b ≤ a)
  | some _, none => true
  | none, some _ => false
  | none, none => true

/-- `rowLeB` as a relation, for use with `List.insertionSort`. -/
def rowLE (c : String) (r1 r2 : Row) : Prop :=
  rowLeB c r1 r2 = true

instance (c : String) : DecidableRel (rowLE c) := fun r1 r2 =>
  inferInstanceAs (Decidable (rowLeB c r1 r2 = true))

instance (c : String) : IsTotal Row (rowLE c) where
  total r1 r2 := by
    unfold rowLE rowLeB
    cases sortKey c r1 <;> cases sortKey c r2 <;> simp
    omega

instance (c : String) : IsTrans Row (rowLE c) where
  trans r1 r2 r3 := by
    unfold rowLE rowLeB
    cases sortKey c r1 <;> cases sortKey c r2 <;> cases sortKey c r3 <;> simp
    all_goals omega

/-- `df.sort_values(c, ascending=False, na_position='last')` (src line 373):
raises a `KeyError` (modelled as `Except.error`) when the column is absent,
otherwise reorders the rows.  (pandas' quicksort is modelled by a sort producing
the same ordering guarantee; none of the verified properties depend on how ties
are broken.) -/
def sort_values (c : String) (t : Table) : Except String Table :=
  if c ∈ t.cols then
    Except.ok { cols := t.cols, rows := List.insertionSort (rowLE c) t.rows }
  else
    Except.error "KeyError"

/-- `execute_query` (src lines 103–111): a query that succeeds returns its
DataFrame, one that raises returns an empty DataFrame (after printing the error). -/
def execute_query (outcome : Except String Table) : Table :=
  match outcome with
  | Except.ok df => df
  | Except.error _ => { cols := [], rows := [] }

/-- Whether a query outcome contributes nothing: it raised, or returned no rows. -/
def isEmptyOutcome (outcome : Except String Table) : Bool :=
  (execute_query outcome).rows.isEmpty

/-- How a run of `main` (src lines 339–400) ends.  `noConfig` is the instructional
abort at src 345–354 (no connection attempted), `noConn` the abort after a failed
connection (src 357–360), `noData` the "Aucune donnée récupérée" abort (src
388–390, no output file written), `renderError` the catch-all `except` (src
392–394, no output file written), and `rendered t` the success path that calls
`generate_html_report` on the sorted frame `t` and writes the dated output file.
`importError` is an exception raised by `load_config()` at module import (src
line 36), before any of `main` runs. -/
inductive Outcome where
  | importError
  | noConfig
  | noConn
  | noData
  | renderError
  | rendered (t : Table)
deriving DecidableEq

/-- The `dataframes` list built by the query loop in `main` (src lines 364–368):
each query's result, with empty DataFrames (failed or rowless queries) left out. -/
def selectDataframes (results : List (Except String Table)) : List Table :=
  (results.map execute_query).filter fun df => !df.rows.isEmpty

/-- The body of `main` (src lines 339–400) given the environment: whether
`config.txt` exists, whether the connection attempt succeeds, and the outcome of
each catalog query (in catalog order; the real catalog has six entries). -/
def mainRun (configExists connOk : Bool) (results : List (Except String Table)) : Outcome :=
  if !configExists then Outcome.noConfig
  else if !connOk then Outcome.noConn
  else if (selectDataframes results).isEmpty then Outcome.noData
  else
    match sort_values "nb_pieces_a_traiter" (merge_dataframes (selectDataframes results)) with
    | Except.ok final_df => Outcome.rendered final_df
    | Except.error _ => Outcome.renderError

/-- The whole program: module import runs `DB_CONFIG = load_config()` (src line
36) — an exception there ends the process before `main` — then `main` runs. -/
def program (configExists : Bool) (configLines : List String) (connOk : Bool)
    (results : List (Except String Table)) : Outcome :=
  match load_config configExists configLines with
  | none => Outcome.importError
  | some _ => mainRun configExists connOk results

/-- The dossier values of a table, in row order. -/
def dossiers (t : Table) : List Val :=
  t.rows.map rowKey

/-- A well-formed Result Table for the merge claims: it has the `dossier` column
and every row's `dossier` cell is a string satisfying `p` (the catalog queries
all produce such tables; `p` lets the invariant claims additionally demand
non-empty identifiers). -/
def KeyedB (p : String → Bool) (t : Table) : Bool :=
  t.cols.contains "dossier" &&
  t.rows.all fun r =>
    match Row.get r "dossier" with
    | Val.str s => p s
    | _ => false

/-- `KeyedB` unpacked into a proposition. -/
def KeyedRows (p : String → Bool) (t : Table) : Prop :=
  "dossier" ∈ t.cols ∧ ∀ r ∈ t.rows, ∃ s, Row.get r "dossier" = Val.str s ∧ p s = true

/-- `int(row.get('nb_pieces_a_traiter', 0))` (src line 293) on an integer-valued
cell; the 0 default covers a missing column.  (On a non-numeric string Python
`int()` would raise; the model returns 0 there, and the renderer only applies it
to integer cells.) -/
def pieces_a_traiter (row : Row) : Int :=
  match Row.get row "nb_pieces_a_traiter" with
  | Val.int n => n
  | _ => 0

/-- First input table of the spec §8 scenario: `[{dossier:"A", nb_pieces_exportees:5}]`. -/
def t1_scenario : Table where
  cols := ["dossier", "nb_pieces_exportees"]
  rows := [[("dossier", Val.str "A"), ("nb_pieces_exportees", Val.int 5)]]

/-- Second input table of the spec §8 scenario:
`[{dossier:"A", nb_pieces_a_traiter:60}, {dossier:"B", nb_pieces_a_traiter:3}]`. -/
def t2_scenario : Table where
  cols := ["dossier", "nb_pieces_a_traiter"]
  rows := [[("dossier", Val.str "A"), ("nb_pieces_a_traiter", Val.int 60)],
           [("dossier", Val.str "B"), ("nb_pieces_a_traiter", Val.int 3)]]

/-- The merged and sorted table the §8 scenario expects. -/
def merged_scenario : Table where
  cols := ["dossier", "nb_pieces_exportees", "nb_pieces_a_traiter"]
  rows := [[("dossier", Val.str "A"), ("nb_pieces_exportees", Val.int 5),
            ("nb_pieces_a_traiter", Val.int 60)],
           [("dossier", Val.str "B"), ("nb_pieces_exportees", Val.int 0),
            ("nb_pieces_a_traiter", Val.int 3)]]

/-- A one-row result table with key `A` and a single count column `c`. -/
def okTable (c : String) : Table where
  cols := ["dossier", c]
  rows := [[("dossier", Val.str "A"), (c, Val.int 1)]]

/-- A one-row `dates_extremes`-shaped result table. -/
def datesTable : Table where
  cols := ["dossier", "date_min_a_traiter", "date_max_a_traiter"]
  rows := [[("dossier", Val.str "A"), ("date_min_a_traiter", Val.str "01-01-2024"),
            ("date_max_a_traiter", Val.str "02-01-2024")]]

/-- Query outcomes in which only the third catalog query (`pieces_non_exportees`,
the one producing `nb_pieces_a_traiter`) fails while all five others return rows. -/
def resultsPiecesFail : List (Except String Table) :=
  [Except.ok (okTable "nb_pieces_exportees"),
   Except.ok (okTable "nb_ecritures_exportees"),
   Except.error "permission denied for relation edi_ecriture_comptable",
   Except.ok (okTable "nb_ecritures_a_traiter"),
   Except.ok (okTable "nb_comptes_attente"),
   Except.ok datesTable]

/-- Small keyed table (key `X`) used to instantiate the merge theorems. -/
def wT1 : Table where
  cols := ["dossier", "nb_a"]
  rows := [[("dossier", Val.str "X"), ("nb_a", Val.int 1)]]

/-- Small keyed table (key `Y`) used to instantiate the merge theorems. -/
def wT2 : Table where
  cols := ["dossier", "nb_b"]
  rows := [[("dossier", Val.str "Y"), ("nb_b", Val.int 2)]]

/-- A successful, non-empty `pieces_non_exportees` result used to instantiate the
isolation theorem. -/
def wT3 : Table where
  cols := ["dossier", "nb_pieces_a_traiter"]
  rows := [[("dossier", Val.str "A"), ("nb_pieces_a_traiter", Val.int 4)]]

/-- A table with one missing sort key, used to instantiate the sorting theorem. -/
def sortW : Table where
  cols := ["nb_pieces_a_traiter"]
  rows := [[("nb_pieces_a_traiter", Val.int 1)], [], [("nb_pieces_a_traiter", Val.int 5)]]

/-- `sortW` as `sort_values` reorders it: descending, the keyless row last. -/
def sortWsorted : Table where
  cols := ["nb_pieces_a_traiter"]
  rows := [[("nb_pieces_a_traiter", Val.int 5)], [("nb_pieces_a_traiter", Val.int 1)], []]

lemma get_eq_str_iff {r : Row} {c : String} {s : String} :
    Row.get r c = Val.str s ↔ List.lookup c r = some (Val.str s) := by
  unfold Row.get
  cases h : List.lookup c r <;> simp

lemma keyedB_iff {p : String → Bool} {t : Table} :
    KeyedB p t = true ↔ KeyedRows p t := by
  unfold KeyedB KeyedRows
  rw [Bool.and_eq_true, List.all_eq_true]
  constructor
  · rintro ⟨h1, h2⟩
    refine ⟨by simpa [List.contains, List.elem_iff] using h1, fun r hr => ?_⟩
    have := h2 r hr
    cases h : Row.get r "dossier" <;> rw [h] at this <;> simp_all
  · rintro ⟨h1, h2⟩
    refine ⟨by simpa [List.contains, List.elem_iff] using h1, fun r hr => ?_⟩
    obtain ⟨s, hs, hp⟩ := h2 r hr
    rw [hs]
    exact hp

lemma rowKey_append {r r2 : Row} {s : String}
    (h : List.lookup "dossier" r = some (Val.str s)) : rowKey (r ++ r2) = Val.str s := by
  unfold rowKey Row.get
  rw [List.lookup_append, h]
  rfl

lemma lookup_map_pair (cols : List String) (f : String → Val) (c : String) :
    List.lookup c (cols.map fun c' => (c', f c')) =
      if c ∈ cols then some (f c) else none := by
  induction cols with
  | nil => simp
  | cons d ds ih =>
    by_cases hcd : c = d
    · subst hcd
      simp [List.lookup]
    · have hbeq : (c == d) = false := by simp [hcd]
      simp [List.lookup, hbeq, ih, List.mem_cons, hcd]

lemma get_fillRow {t : Table} {r : Row} {c : String} (hc : c ∈ t.cols) :
    Row.get (fillRow t r) c = fillVal t r c := by
  unfold fillRow Row.get
  rw [lookup_map_pair, if_pos hc]
  rfl

/-- Characterisation of the rows of an outer merge: a left row with no key match,
a combined row for a matching key pair, or a right row with no key match. -/
lemma mem_rows_mergeTwo {t1 t2 : Table} {x : Row} :
    x ∈ (mergeTwo t1 t2).rows ↔
      (∃ r ∈ t1.rows, x = r ∧ ∀ r2 ∈ t2.rows, rowKey r2 ≠ rowKey r) ∨
      (∃ r ∈ t1.rows, ∃ r2 ∈ t2.rows, rowKey r2 = rowKey r ∧ x = r ++ r2) ∨
      (x ∈ t2.rows ∧ ∀ r ∈ t1.rows, rowKey r ≠ rowKey x) := by
  unfold mergeTwo
  rw [List.mem_append, List.mem_flatMap]
  constructor
  · rintro (⟨r, hr, hx⟩ | hx)
    · dsimp only at hx
      by_cases he : (t2.rows.filter fun r2 => rowKey r2 == rowKey r).isEmpty
      · rw [if_pos he] at hx
        rw [List.isEmpty_iff, List.filter_eq_nil_iff] at he
        left
        refine ⟨r, hr, by simpa using hx, fun r2 hr2 => ?_⟩
        have := he r2 hr2
        simpa using this
      · rw [if_neg he] at hx
        obtain ⟨r2, hr2, hx⟩ := List.mem_map.mp hx
        have hr2' := List.mem_filter.mp hr2
        right; left
        exact ⟨r, hr, r2, hr2'.1, by simpa using hr2'.2, hx.symm⟩
    · have hx' := List.mem_filter.mp hx
      right; right
      refine ⟨hx'.1, fun r hr => ?_⟩
      have := hx'.2
      simp only [Bool.not_eq_true', List.any_eq_false] at this
      have := this r hr
      simpa using this
  · rintro (⟨r, hr, hxr, hno⟩ | ⟨r, hr, r2, hr2, hk, hxr⟩ | ⟨hx, hno⟩)
    · subst hxr
      left
      refine ⟨x, hr, ?_⟩
      dsimp only
      have he : (t2.rows.filter fun r2 => rowKey r2 == rowKey x).isEmpty := by
        rw [List.isEmpty_iff, List.filter_eq_nil_iff]
        intro r2 hr2
        simpa using hno r2 hr2
      rw [if_pos he]
      simp
    · subst hxr
      left
      refine ⟨r, hr, ?_⟩
      dsimp only
      have hmem : r2 ∈ t2.rows.filter fun r2' => rowKey r2' == rowKey r :=
        List.mem_filter.mpr ⟨hr2, by simpa using hk⟩
      have he : (t2.rows.filter fun r2' => rowKey r2' == rowKey r).isEmpty = false := by
        rw [List.isEmpty_eq_false]
        exact List.ne_nil_of_mem hmem
      rw [he]
      simp only [Bool.false_eq_true, if_false]
      exact List.mem_map.mpr ⟨r2, hmem, rfl⟩
    · right
      refine List.mem_filter.mpr ⟨hx, ?_⟩
      simp only [Bool.not_eq_true', List.any_eq_false]
      intro r hr
      simpa using hno r hr

lemma keyedRows_mergeTwo {p : String → Bool} {t1 t2 : Table}
    (h1 : KeyedRows p t1) (h2 : KeyedRows p t2) : KeyedRows p (mergeTwo t1 t2) := by
  obtain ⟨hc1, hr1⟩ := h1
  obtain ⟨_, hr2⟩ := h2
  constructor
  · exact List.mem_append.mpr (Or.inl hc1)
  · intro x hx
    rcases mem_rows_mergeTwo.mp hx with ⟨r, hr, hxr, _⟩ | ⟨r, hr, r2, hm2, _, hxr⟩ | ⟨hm2, _⟩
    · subst hxr
      exact hr1 x hr
    · subst hxr
      obtain ⟨s, hs, hp⟩ := hr1 r hr
      exact ⟨s, get_eq_str_iff.mpr (by rw [List.lookup_append, get_eq_str_iff.mp hs]; rfl), hp⟩
    · exact hr2 x hm2

lemma rowKey_mergeTwo_append {p : String → Bool} {t1 : Table} {r r2 : Row}
    (h1 : KeyedRows p t1) (hr : r ∈ t1.rows) : rowKey (r ++ r2) = rowKey r := by
  obtain ⟨s, hs, _⟩ := h1.2 r hr
  rw [rowKey_append (get_eq_str_iff.mp hs)]
  unfold rowKey
  rw [hs]

lemma mem_dossiers_mergeTwo {p : String → Bool} {t1 t2 : Table} {v : Val}
    (h1 : KeyedRows p t1) :
    v ∈ dossiers (mergeTwo t1 t2) ↔ v ∈ dossiers t1 ∨ v ∈ dossiers t2 := by
  unfold dossiers
  constructor
  · intro hv
    obtain ⟨x, hx, hkx⟩ := List.mem_map.mp hv
    rcases mem_rows_mergeTwo.mp hx with ⟨r, hr, hxr, _⟩ | ⟨r, hr, r2, hm2, _, hxr⟩ | ⟨hm2, _⟩
    · subst hxr
      exact Or.inl (List.mem_map.mpr ⟨x, hr, hkx⟩)
    · subst hxr
      rw [rowKey_mergeTwo_append h1 hr] at hkx
      exact Or.inl (List.mem_map.mpr ⟨r, hr, hkx⟩)
    · exact Or.inr (List.mem_map.mpr ⟨x, hm2, hkx⟩)
  · intro hv
    rcases hv with hv | hv
    · obtain ⟨r, hr, hkr⟩ := List.mem_map.mp hv
      by_cases hm : ∃ r2 ∈ t2.rows, rowKey r2 = rowKey r
      · obtain ⟨r2, hr2, hk⟩ := hm
        refine List.mem_map.mpr ⟨r ++ r2, ?_, ?_⟩
        · exact mem_rows_mergeTwo.mpr (Or.inr (Or.inl ⟨r, hr, r2, hr2, hk, rfl⟩))
        · rw [rowKey_mergeTwo_append h1 hr]
          exact hkr
      · push_neg at hm
        refine List.mem_map.mpr ⟨r, ?_, hkr⟩
        exact mem_rows_mergeTwo.mpr (Or.inl ⟨r, hr, rfl, hm⟩)
    · obtain ⟨r2, hr2, hkr⟩ := List.mem_map.mp hv
      by_cases hm : ∃ r ∈ t1.rows, rowKey r = rowKey r2
      · obtain ⟨r, hr, hk⟩ := hm
        refine List.mem_map.mpr ⟨r ++ r2, ?_, ?_⟩
        · exact mem_rows_mergeTwo.mpr (Or.inr (Or.inl ⟨r, hr, r2, hr2, hk.symm, rfl⟩))
        · rw [rowKey_mergeTwo_append h1 hr, hk]
          exact hkr
      · push_neg at hm
        refine List.mem_map.mpr ⟨r2, ?_, hkr⟩
        exact mem_rows_mergeTwo.mpr (Or.inr (Or.inr ⟨hr2, hm⟩))

lemma foldl_mergeTwo_spec {p : String → Bool} :
    ∀ (rest : List Table) (t0 : Table), KeyedRows p t0 → (∀ t ∈ rest, KeyedRows p t) →
      KeyedRows p (rest.foldl mergeTwo t0) ∧
      ∀ v, v ∈ dossiers (rest.foldl mergeTwo t0) ↔
        v ∈ dossiers t0 ∨ ∃ t ∈ rest, v ∈ dossiers t := by
  intro rest
  induction rest with
  | nil =>
    intro t0 h0 _
    exact ⟨h0, fun v => by simp⟩
  | cons t rest ih =>
    intro t0 h0 hall
    have ht : KeyedRows p t := hall t (List.mem_cons.mpr (Or.inl rfl))
    have h01 : KeyedRows p (mergeTwo t0 t) := keyedRows_mergeTwo h0 ht
    have hrest : ∀ t' ∈ rest, KeyedRows p t' :=
      fun t' ht' => hall t' (List.mem_cons.mpr (Or.inr ht'))
    obtain ⟨hk, hiff⟩ := ih (mergeTwo t0 t) h01 hrest
    refine ⟨hk, fun v => ?_⟩
    rw [List.foldl_cons] at *
    rw [hiff v, mem_dossiers_mergeTwo h0]
    constructor
    · rintro ((h | h) | ⟨t', ht', hv⟩)
      · exact Or.inl h
      · exact Or.inr ⟨t, List.mem_cons.mpr (Or.inl rfl), h⟩
      · exact Or.inr ⟨t', List.mem_cons.mpr (Or.inr ht'), hv⟩
    · rintro (h | ⟨t', ht', hv⟩)
      · exact Or.inl (Or.inl h)
      · rcases List.mem_cons.mp ht' with h' | h'
        · subst h'
          exact Or.inl (Or.inr hv)
        · exact Or.inr ⟨t', h', hv⟩

lemma rows_fillna {t : Table} : (fillna t).rows = t.rows.map (fillRow t) := rfl

lemma cols_fillna {t : Table} : (fillna t).cols = t.cols := rfl

lemma rowKey_fillRow {p : String → Bool} {t : Table} (hk : KeyedRows p t)
    {r : Row} (hr : r ∈ t.rows) : rowKey (fillRow t r) = rowKey r := by
  obtain ⟨s, hs, _⟩ := hk.2 r hr
  unfold rowKey at *
  rw [get_fillRow hk.1, hs]
  unfold fillVal
  rw [hs]

lemma dossiers_fillna {p : String → Bool} {t : Table} (hk : KeyedRows p t) :
    dossiers (fillna t) = dossiers t := by
  unfold dossiers
  rw [rows_fillna, List.map_map]
  exact List.map_congr_left fun r hr => rowKey_fillRow hk hr

lemma mem_cols_mergeTwo {t1 t2 : Table} {c : String} (h : c ∈ t1.cols ∨ c ∈ t2.cols) :
    c ∈ (mergeTwo t1 t2).cols := by
  unfold mergeTwo
  rw [List.mem_append]
  by_cases h1 : c ∈ t1.cols
  · exact Or.inl h1
  · rcases h with h | h
    · exact absurd h h1
    · refine Or.inr (List.mem_filter.mpr ⟨h, ?_⟩)
      simpa [List.contains, List.elem_iff] using h1

lemma mem_cols_foldl {c : String} :
    ∀ (rest : List Table) (t0 : Table), (c ∈ t0.cols ∨ ∃ t ∈ rest, c ∈ t.cols) →
      c ∈ (rest.foldl mergeTwo t0).cols := by
  intro rest
  induction rest with
  | nil =>
    intro t0 h
    rcases h with h | ⟨t, ht, _⟩
    · exact h
    · cases ht
  | cons t rest ih =>
    intro t0 h
    rw [List.foldl_cons]
    refine ih (mergeTwo t0 t) ?_
    rcases h with h | ⟨t', ht', hv⟩
    · exact Or.inl (mem_cols_mergeTwo (Or.inl h))
    · rcases List.mem_cons.mp ht' with h' | h'
      · subst h'
        exact Or.inl (mem_cols_mergeTwo (Or.inr hv))
      · exact Or.inr ⟨t', h', hv⟩

lemma mem_cols_merge_dataframes {dataframes : List Table} {t : Table} {c : String}
    (ht : t ∈ dataframes) (hc : c ∈ t.cols) : c ∈ (merge_dataframes dataframes).cols := by
  cases dataframes with
  | nil => cases ht
  | cons t0 rest =>
    show c ∈ (fillna (rest.foldl mergeTwo t0)).cols
    rw [cols_fillna]
    refine mem_cols_foldl rest t0 ?_
    rcases List.mem_cons.mp ht with h | h
    · subst h
      exact Or.inl hc
    · exact Or.inr ⟨t, h, hc⟩

/-- C7: the severity classification is a pure function of the metric and value
with fixed thresholds: "pieces to process" is flagged (`warning`) exactly above
50, nominal (`good`) exactly at 0, neutral (empty class) otherwise — so 50 is
neutral and 51 flagged — and "accounts pending" is flagged exactly above 10,
nominal at 0, neutral otherwise (src lines 292–298). -/
theorem severity_classification :
    (∀ v : Int,
      (pieces_class v = "warning" ↔ 50 < v) ∧
      (pieces_class v = "good" ↔ v = 0) ∧
      (pieces_class v = "" ↔ v ≤ 50 ∧ v ≠ 0) ∧
      (comptes_class v = "warning" ↔ 10 < v) ∧
      (comptes_class v = "good" ↔ v = 0) ∧
      (comptes_class v = "" ↔ v ≤ 10 ∧ v ≠ 0)) ∧
    pieces_class 50 = "" ∧ pieces_class 51 = "warning" ∧ pieces_class 0 = "good" := by
  refine ⟨fun v => ?_, by decide, by decide, by decide⟩
  unfold pieces_class comptes_class
  split_ifs with h1 h2 h3 h4 h5 <;> simp_all
  all_goals omega

/-- C5: merging the §8 scenario tables yields row `A` with `nb_pieces_exportees = 5`
and `nb_pieces_a_traiter = 60` and row `B` with `nb_pieces_exportees = 0` (filled)
and `nb_pieces_a_traiter = 3`; the sorted row order is `[A, B]`; and the severity
classification flags `A`'s "pieces to process" cell (`warning`) while `B`'s is
neutral (empty class). -/
theorem scenario_merge_sort_classify :
    sort_values "nb_pieces_a_traiter" (merge_dataframes [t1_scenario, t2_scenario]) =
      Except.ok merged_scenario ∧
    merged_scenario.rows.map rowKey = [Val.str "A", Val.str "B"] ∧
    merged_scenario.rows.map (fun r => pieces_class (pieces_a_traiter r)) = ["warning", ""] := by
  decide

/-- C6: when every one of the six queries either raises or returns zero rows, the
`dataframes` list stays empty and `main` takes the "Aucune donnée récupérée"
branch (src lines 388–390): it aborts before rendering and no output file is
written (`Outcome.noData`; only `Outcome.rendered` reaches
`generate_html_report`). -/
theorem all_queries_empty_aborts :
    ∀ (results : List (Except String Table)), results.length = 6 →
      (∀ r ∈ results, isEmptyOutcome r = true) →
      mainRun true true results = Outcome.noData := by
  intro results _ hempty
  have hfil : selectDataframes results = [] := by
    unfold selectDataframes
    rw [List.filter_eq_nil_iff]
    intro df hdf
    obtain ⟨r, hr, hrdf⟩ := List.mem_map.mp hdf
    have h := hempty r hr
    unfold isEmptyOutcome at h
    rw [← hrdf]
    simp [h]
  unfold mainRun
  rw [hfil]
  simp

/-- Witness for C6 at a concrete input: three raised queries, three empty results. -/
theorem all_queries_empty_aborts_witness :
    mainRun true true
      [Except.error "a", Except.error "b", Except.error "c",
       Except.ok { cols := ["dossier"], rows := [] },
       Except.ok { cols := ["dossier", "nb_comptes_attente"], rows := [] },
       Except.error "f"] = Outcome.noData :=
  all_queries_empty_aborts _ (by decide) (by decide)

/-- C8: when `config.txt` is absent, `load_config` raises nothing at import (it
falls back to defaults without reading the file), and `main` prints the
instructional message and aborts (`Outcome.noConfig`, src lines 344–354) whatever
the connection or the queries would do — in particular no connection is
attempted: the outcome is the same for every value of `connOk`. -/
theorem config_missing_aborts :
    ∀ (configLines : List String) (connOk : Bool) (results : List (Except String Table)),
      program false configLines connOk results = Outcome.noConfig := by
  intro lines connOk results
  rfl

/-- C1 counterexample: with the connection up, five queries returning rows and
only `pieces_non_exportees` raising, the merged frame lacks the
`nb_pieces_a_traiter` column, so `final_df.sort_values('nb_pieces_a_traiter', ...)`
(src line 373) raises a `KeyError` that the top-level `except` catches: the run
aborts (`Outcome.renderError`) instead of proceeding to rendering — the failure
of this particular query is not isolated. -/
theorem query_failure_not_isolated_counterexample :
    mainRun true true resultsPiecesFail = Outcome.renderError ∧
    (okTable "nb_pieces_exportees").rows ≠ [] ∧
    Except.ok (okTable "nb_pieces_exportees") ∈ resultsPiecesFail := by
  decide

/-- C1 (amended): per-query failure is isolated at the executor level — a raised
query prints its error and contributes an empty DataFrame (first conjunct, src
lines 103–111) — and the run proceeds to rendering whenever the
`pieces_non_exportees` query (third catalog entry) succeeded with at least one
row, whatever the five other queries did (second conjunct): its
`nb_pieces_a_traiter` column then survives into the merged frame, so the final
sort succeeds. -/
theorem query_failure_isolated :
    (∀ e : String, execute_query (Except.error e) = { cols := [], rows := [] }) ∧
    ∀ (r1 r2 r4 r5 r6 : Except String Table) (t3 : Table),
      t3.rows ≠ [] → "nb_pieces_a_traiter" ∈ t3.cols →
      ∃ t', mainRun true true [r1, r2, Except.ok t3, r4, r5, r6] = Outcome.rendered t' := by
  refine ⟨fun e => rfl, ?_⟩
  intro r1 r2 r4 r5 r6 t3 hne hcol
  have ht3 : t3 ∈ selectDataframes [r1, r2, Except.ok t3, r4, r5, r6] := by
    unfold selectDataframes
    refine List.mem_filter.mpr ⟨?_, ?_⟩
    · exact List.mem_map.mpr ⟨Except.ok t3, by simp, rfl⟩
    · simp [List.isEmpty_eq_false.mpr hne]
  have hdne : (selectDataframes [r1, r2, Except.ok t3, r4, r5, r6]).isEmpty = false :=
    List.isEmpty_eq_false.mpr (List.ne_nil_of_mem ht3)
  have hc : "nb_pieces_a_traiter" ∈
      (merge_dataframes (selectDataframes [r1, r2, Except.ok t3, r4, r5, r6])).cols :=
    mem_cols_merge_dataframes ht3 hcol
  refine ⟨{ cols := (merge_dataframes (selectDataframes [r1, r2, Except.ok t3, r4, r5, r6])).cols,
            rows := List.insertionSort (rowLE "nb_pieces_a_traiter")
              (merge_dataframes (selectDataframes [r1, r2, Except.ok t3, r4, r5, r6])).rows }, ?_⟩
  unfold mainRun sort_values
  rw [hdne, if_pos hc]
  simp

/-- Witness for C1's amended theorem: all five other queries raise, yet the run
renders. -/
theorem query_failure_isolated_witness :
    ∃ t', mainRun true true
        [Except.error "a", Except.error "b", Except.ok wT3,
         Except.error "d", Except.error "e", Except.error "f"] = Outcome.rendered t' :=
  query_failure_isolated.2 (Except.error "a") (Except.error "b") (Except.error "d")
    (Except.error "e") (Except.error "f") wT3 (by decide) (by decide)

lemma rowLE_iff_match {c : String} {r1 r2 : Row} :
    rowLE c r1 r2 ↔
      (match sortKey c r1, sortKey c r2 with
       | some a, some b => b ≤ a
       | none, some _ => False
       | _, _ => True) := by
  unfold rowLE rowLeB
  cases sortKey c r1 <;> cases sortKey c r2 <;> simp

/-- C4: whenever `sort_values('nb_pieces_a_traiter', ascending=False,
na_position='last')` succeeds (src line 373), the output holds exactly the input
rows, ordered so that between any two rows with a numeric "pieces to process"
value the later value is ≤ the earlier (non-increasing), and a row with a
missing/unsortable value never precedes a row with a numeric one (missing sort
last). -/
theorem sort_values_ordering :
    ∀ (t t' : Table), sort_values "nb_pieces_a_traiter" t = Except.ok t' →
      List.Perm t'.rows t.rows ∧
      List.Pairwise (fun r1 r2 =>
        match sortKey "nb_pieces_a_traiter" r1, sortKey "nb_pieces_a_traiter" r2 with
        | some a, some b => b ≤ a
        | none, some _ => False
        | _, _ => True) t'.rows := by
  intro t t' h
  unfold sort_values at h
  by_cases hc : "nb_pieces_a_traiter" ∈ t.cols
  · rw [if_pos hc] at h
    cases h
    constructor
    · exact List.perm_insertionSort _ _
    · exact List.Pairwise.imp (fun hab => rowLE_iff_match.mp hab)
        (List.sorted_insertionSort (rowLE "nb_pieces_a_traiter") t.rows)
  · rw [if_neg hc] at h
    cases h

/-- Witness for C4 at a concrete table containing a row with a missing sort key. -/
theorem sort_values_ordering_witness :
    List.Perm sortWsorted.rows sortW.rows ∧
    List.Pairwise (fun r1 r2 =>
      match sortKey "nb_pieces_a_traiter" r1, sortKey "nb_pieces_a_traiter" r2 with
      | some a, some b => b ≤ a
      | none, some _ => False
      | _, _ => True) sortWsorted.rows :=
  sort_values_ordering sortW sortWsorted (by decide)

/-- C2: for a non-empty list of Result Tables each keyed by a `dossier` column
(string-valued keys, as every catalog query produces), the dossier values of the
merged table are exactly the union of the dossier values of the inputs: no key is
dropped and none is invented (src lines 113–132). -/
theorem outer_join_completeness :
    ∀ (dataframes : List Table), dataframes ≠ [] →
      (∀ t ∈ dataframes, KeyedB (fun _ => true) t = true) →
      ∀ v : Val,
        v ∈ dossiers (merge_dataframes dataframes) ↔ ∃ t ∈ dataframes, v ∈ dossiers t := by
  intro dataframes hne hk v
  cases dataframes with
  | nil => exact absurd rfl hne
  | cons t0 rest =>
    have hk' : ∀ t ∈ t0 :: rest, KeyedRows (fun _ => true) t :=
      fun t ht => keyedB_iff.mp (hk t ht)
    obtain ⟨hkey, hiff⟩ := foldl_mergeTwo_spec rest t0 (hk' t0 (by simp))
      (fun t ht => hk' t (List.mem_cons.mpr (Or.inr ht)))
    show v ∈ dossiers (fillna (rest.foldl mergeTwo t0)) ↔ _
    rw [dossiers_fillna hkey, hiff v]
    constructor
    · rintro (h | ⟨t, ht, hv⟩)
      · exact ⟨t0, List.mem_cons.mpr (Or.inl rfl), h⟩
      · exact ⟨t, List.mem_cons.mpr (Or.inr ht), hv⟩
    · rintro ⟨t, ht, hv⟩
      rcases List.mem_cons.mp ht with h | h
      · subst h
        exact Or.inl hv
      · exact Or.inr ⟨t, h, hv⟩

/-- Witness for C2: key `Y` appears only in the second input and survives the
merge. -/
theorem outer_join_completeness_witness :
    Val.str "Y" ∈ dossiers (merge_dataframes [wT1, wT2]) :=
  (outer_join_completeness [wT1, wT2] (by decide) (by decide) (Val.str "Y")).mpr
    ⟨wT2, by decide, by decide⟩

/-- C3: for a non-empty list of Result Tables keyed by non-empty string dossiers,
every row of the merged table has a non-empty `dossier`, holds no NaN in any
column, and holds an integer in every numeric column; moreover any cell that was
missing after the joins reads 0 in a numeric column and the empty string
elsewhere (src lines 125–132). -/
theorem merged_table_filled :
    ∀ (dataframes : List Table), dataframes ≠ [] →
      (∀ t ∈ dataframes, KeyedB (fun s => !(s == "")) t = true) →
      (∀ r ∈ (merge_dataframes dataframes).rows,
        (∃ s, Row.get r "dossier" = Val.str s ∧ s ≠ "") ∧
        ∀ c ∈ (merge_dataframes dataframes).cols,
          Row.get r c ≠ Val.na ∧
          (isNumericCol (mergedRaw dataframes) c = true → ∃ n, Row.get r c = Val.int n)) ∧
      (∀ c ∈ (merge_dataframes dataframes).cols, ∀ r0 ∈ (mergedRaw dataframes).rows,
        Row.get r0 c = Val.na →
          Row.get (fillRow (mergedRaw dataframes) r0) c =
            if isNumericCol (mergedRaw dataframes) c then Val.int 0 else Val.str "") := by
  intro dataframes hne hk
  cases dataframes with
  | nil => exact absurd rfl hne
  | cons t0 rest =>
    have hk' : ∀ t ∈ t0 :: rest, KeyedRows (fun s => !(s == "")) t :=
      fun t ht => keyedB_iff.mp (hk t ht)
    obtain ⟨hkey, _⟩ := foldl_mergeTwo_spec rest t0 (hk' t0 (by simp))
      (fun t ht => hk' t (List.mem_cons.mpr (Or.inr ht)))
    have hraw : mergedRaw (t0 :: rest) = rest.foldl mergeTwo t0 := rfl
    have hmerged : merge_dataframes (t0 :: rest) = fillna (rest.foldl mergeTwo t0) := rfl
    rw [hraw, hmerged]
    constructor
    · intro r hr
      rw [rows_fillna] at hr
      obtain ⟨r0, hr0, hrr⟩ := List.mem_map.mp hr
      subst hrr
      constructor
      · obtain ⟨s, hs, hp⟩ := hkey.2 r0 hr0
        refine ⟨s, ?_, by simpa using hp⟩
        rw [get_fillRow hkey.1]
        unfold fillVal
        rw [hs]
      · intro c hc
        rw [cols_fillna] at hc
        rw [get_fillRow hc]
        constructor
        · unfold fillVal
          cases h : Row.get r0 c with
          | na =>
            by_cases hn : isNumericCol (rest.foldl mergeTwo t0) c = true
            · rw [if_pos hn]
              exact fun hcon => Val.noConfusion hcon
            · rw [if_neg hn]
              exact fun hcon => Val.noConfusion hcon
          | int n => exact fun hcon => Val.noConfusion hcon
          | str s => exact fun hcon => Val.noConfusion hcon
        · intro hnum
          unfold fillVal
          cases h : Row.get r0 c with
          | na =>
            rw [if_pos hnum]
            exact ⟨0, rfl⟩
          | int n => exact ⟨n, rfl⟩
          | str s =>
            unfold isNumericCol at hnum
            rw [List.all_eq_true] at hnum
            have := hnum r0 hr0
            rw [h] at this
            cases this
    · intro c hc r0 hr0 hna
      rw [cols_fillna] at hc
      rw [get_fillRow hc]
      unfold fillVal
      rw [hna]

/-- Witness for C3: in the merged form of `wT1` and `wT2`, row `Y` (which lacked
`nb_a` before filling) has a non-empty dossier and a non-NaN `nb_a` cell. -/
theorem merged_table_filled_witness :
    (∃ s, Row.get [("dossier", Val.str "Y"), ("nb_a", Val.int 0), ("nb_b", Val.int 2)]
        "dossier" = Val.str s ∧ s ≠ "") ∧
    Row.get [("dossier", Val.str "Y"), ("nb_a", Val.int 0), ("nb_b", Val.int 2)]
        "nb_a" ≠ Val.na := by
  have h := (merged_table_filled [wT1, wT2] (by decide) (by decide)).1
    [("dossier", Val.str "Y"), ("nb_a", Val.int 0), ("nb_b", Val.int 2)] (by decide)
  exact ⟨h.1, (h.2 "nb_a" (by decide)).1⟩

lemma foldl_parseLine (lines : List String) :
    ∀ acc, lines.foldl parseLine acc = (specEntries lines).reverse ++ acc := by
  induction lines with
  | nil =>
    intro acc
    simp [specEntries]
  | cons l ls ih =>
    intro acc
    rw [List.foldl_cons, ih]
    have hse : specEntries (l :: ls) =
        (if !(pyStrip l == "") && !(pyStartsWith (pyStrip l) "#") && pyContains (pyStrip l) '='
         then [(pyLower (pyStrip (pySplitFirst (pyStrip l) '=').1),
               pyStrip (pySplitFirst (pyStrip l) '=').2)]
         else []) ++ specEntries ls := by
      unfold specEntries
      rw [List.map_cons, List.filter_cons]
      cases h : !(pyStrip l == "") && !(pyStartsWith (pyStrip l) "#") && pyContains (pyStrip l) '='
      · simp [h]
      · simp [h]
    rw [hse]
    unfold parseLine
    cases h : !(pyStrip l == "") && !(pyStartsWith (pyStrip l) "#") && pyContains (pyStrip l) '='
    · simp [h]
    · simp [h, List.reverse_append]

/-- C9: the config loader implements exactly the parsing the spec describes — for
every file content (and also when the file is absent): blank and `#`-comment
lines skipped, remaining `=`-bearing lines split on the first `=` into a
lower-cased trimmed key and trimmed value with later lines overwriting earlier
ones, and the descriptor built with each field independently defaulted (host
`localhost`, placeholder database/user/password, port 5432 parsed as an
integer). -/
theorem loader_matches_spec :
    ∀ (configExists : Bool) (lines : List String),
      load_config configExists lines = load_config_spec configExists lines := by
  intro configExists lines
  unfold load_config load_config_spec specGet
  cases configExists
  · simp
  · simp only [if_true]
    rw [foldl_parseLine lines [], List.append_nil]
    cases h : List.lookup "port" (specEntries lines).reverse
    · simp [h]
    · simp [h]

lemma load_config_none_iff {lines : List String} :
    load_config true lines = none ↔
      ∃ s, List.lookup "port" (lines.foldl parseLine []) = some s ∧ pyInt? s = none := by
  unfold load_config
  simp only [if_true]
  cases h : List.lookup "port" (lines.foldl parseLine [])
  · simp [h]
  · rename_i s
    cases hp : pyInt? s
    · simp [h, hp]
    · simp [h, hp]

/-- C10: `DB_CONFIG = load_config()` runs at module import (src line 36), so a
config file whose `port` value is not a valid integer literal makes `int()`
raise there — the process dies (`Outcome.importError`) before `main`'s
config-existence check and before any instructional message
(`Outcome.noConfig`) could be printed, instead of falling back to 5432; and the
loader can raise in no other way: a malformed value under any other key never
fails the load (first conjunct, an exact characterisation of the failing
inputs). -/
theorem malformed_port_raises_at_import :
    (∀ lines : List String,
      load_config true lines = none ↔
        ∃ s, List.lookup "port" (lines.foldl parseLine []) = some s ∧ pyInt? s = none) ∧
    ∀ (lines : List String) (connOk : Bool) (results : List (Except String Table)) (s : String),
      List.lookup "port" (lines.foldl parseLine []) = some s → pyInt? s = none →
      program true lines connOk results = Outcome.importError := by
  refine ⟨fun lines => load_config_none_iff, ?_⟩
  intro lines connOk results s hs hp
  have hnone : load_config true lines = none := load_config_none_iff.mpr ⟨s, hs, hp⟩
  unfold program
  rw [hnone]

/-- Witness for C10: `port = abc` kills the run at import. -/
theorem malformed_port_raises_at_import_witness :
    program true ["port = abc"] true [] = Outcome.importError :=
  malformed_port_raises_at_import.2 ["port = abc"] true [] "abc" (by decide) (by decide)
